import Mathlib

/-!
Shallow embedding of the prefab save pipeline of
`src/crates/prefab/src/save.rs` (space_editor).

Entities are natural numbers; component type identifiers (Rust `TypeId`)
are natural numbers; component values are natural numbers.  The live ECS
world is a list of entity records; queries become list filters, system
chains become function composition, and the deferred command flush is the
immediacy of the state-passing style.
-/

namespace SpaceEditorSave

/-- State system used to enable slow logic of saving (`SaveState` in save.rs). -/
inductive SaveState where
  | Save
  | Idle
deriving DecidableEq, Repr

/-- Save destination (`EditorPrefabPath` from space_shared). -/
inductive EditorPrefabPath where
  | File (path : String)
  | MemoryCache
deriving DecidableEq, Repr

/-- Kind of a toast notification (space_shared::toast::ToastKind). -/
inductive ToastKind where
  | Warning
  | Error
deriving DecidableEq, Repr

/-- A toast notification message (space_shared::toast::ToastMessage). -/
structure Toast where
  text : String
  kind : ToastKind
deriving DecidableEq, Repr

/-- A log emission (`warn!`, `error!`, `info!`). -/
inductive LogEntry where
  | warn (msg : String)
  | error (msg : String)
  | info (msg : String)
deriving DecidableEq, Repr

/-- Component that holds children entity/prefab information that should be
serialized (`ChildrenPrefab` in save.rs). -/
structure ChildrenPrefab where
  val : List Nat
deriving DecidableEq, Repr

/-- `ChildrenPrefab::from_children`: copies the live `Children` list verbatim
(`children.to_vec()`). -/
def ChildrenPrefab.from_children (children : List Nat) : ChildrenPrefab :=
  ⟨children⟩

/-- `MapEntities for ChildrenPrefab`: rebuilds the list by mapping each stored
entity through the entity mapper (`get_or_reserve`). -/
def ChildrenPrefab.map_entities (mapper : Nat → Nat) (c : ChildrenPrefab) :
    ChildrenPrefab :=
  ⟨c.val.map mapper⟩

/-- The registry `TypeId` of the `ChildrenPrefab` component type. -/
def childrenPrefabTypeId : Nat := 0

/-- One entity of the live world: its id, marker components
(`PrefabMarker`, `SceneAutoChild`), the live `Children` relation (present
iff the list is nonempty, as maintained by the hierarchy), the transient
`ChildrenPrefab` component, and its other reflected components as
(type id, value) pairs. -/
structure EntityRec where
  id : Nat
  prefabMarker : Bool
  sceneAutoChild : Bool
  children : List Nat
  childrenPrefab : Option ChildrenPrefab
  comps : List (Nat × Nat)
deriving DecidableEq, Repr

/-- One entity of the extracted `DynamicScene`: the copied allow-listed
components, with the `ChildrenPrefab` component kept apart for clarity. -/
structure SceneEntity where
  id : Nat
  chPrefab : Option ChildrenPrefab
  comps : List (Nat × Nat)
deriving DecidableEq, Repr

/-- The detached `DynamicScene` produced by `DynamicSceneBuilder::build`. -/
structure Scene where
  entities : List SceneEntity
deriving DecidableEq, Repr

/-- The world state threaded through the save systems: entities, the
`EditorRegistry` (list of registered component `TypeId`s, which is exactly
the allow-list source), the set of type ids whose encode hook fails, the
`SaveConfig` path, the `PrefabMemoryCache` slot, file writes handed to the
`IoTaskPool` (path, encoded text), toast events, logs, and `NextState`. -/
structure World where
  entities : List EntityRec
  registry : List Nat
  encodeFails : List Nat
  savePath : Option EditorPrefabPath
  cache : Option Scene
  scheduledWrites : List (String × String)
  toasts : List Toast
  logs : List LogEntry
  nextState : SaveState
deriving DecidableEq, Repr

/-- Query filter `(With PrefabMarker, Without SceneAutoChild)` used both by
`prepare_children` and by `serialize_scene`'s root query. -/
def isRoot (e : EntityRec) : Bool :=
  e.prefabMarker && !e.sceneAutoChild

/-- Entities matching the root query, in store order. -/
def rootsOf (w : World) : List EntityRec :=
  w.entities.filter isRoot

/-- The collected root entity ids (`prefab_query.iter(world).collect()`). -/
def selectedEntities (w : World) : List Nat :=
  (rootsOf w).map (fun e => e.id)

/-- `prepare_children` applied to one entity: a root that has a `Children`
component receives `ChildrenPrefab::from_children(children)`; every other
entity is untouched. -/
def prepareOne (e : EntityRec) : EntityRec :=
  if isRoot e && !e.children.isEmpty then
    { e with childrenPrefab := some (ChildrenPrefab.from_children e.children) }
  else
    e

/-- System `prepare_children`: inserts a `ChildrenPrefab` on every entity of
the query `(Entity, &Children), (With PrefabMarker, Without SceneAutoChild)`. -/
def prepare_children (w : World) : World :=
  { w with entities := w.entities.map prepareOne }

/-- System `delete_prepared_children`: removes the `ChildrenPrefab` component
from every entity that has one. -/
def delete_prepared_children (w : World) : World :=
  { w with entities := w.entities.map (fun e => { e with childrenPrefab := none }) }

/-- Extraction of one entity under the allow-list
(`allow_all().with_filter(SceneFilter::Allowlist(...))`): a component copy
is kept iff its type id is in the allow-list; this gates the transient
`ChildrenPrefab` exactly like any other component type. -/
def extractEntity (allow : List Nat) (e : EntityRec) : SceneEntity :=
  { id := e.id
    chPrefab :=
      match e.childrenPrefab with
      | some c => if childrenPrefabTypeId ∈ allow then some c else none
      | none => none
    comps := e.comps.filter (fun c => decide (c.1 ∈ allow)) }

/-- `DynamicSceneBuilder::from_world(world).allow_all().with_filter(Allowlist
(allow_types)).extract_entities(entities).build()`: the allow-list is read
fresh from the registry resource at each call. -/
def buildScene (w : World) : Scene :=
  ⟨(rootsOf w).map (extractEntity w.registry)⟩

/-- Component type ids occurring in a scene entity (the encode hooks the
serializer will run for it). -/
def entityCompTypes (e : SceneEntity) : List Nat :=
  (match e.chPrefab with
   | some _ => [childrenPrefabTypeId]
   | none => []) ++ e.comps.map (fun c => c.1)

/-- Component type ids occurring anywhere in a scene. -/
def sceneCompTypes (s : Scene) : List Nat :=
  s.entities.foldr (fun e acc => entityCompTypes e ++ acc) []

/-- Plain text rendering of one scene entity. -/
def renderEntity (e : SceneEntity) : String :=
  toString e.id ++ ":" ++ toString ((e.chPrefab.map ChildrenPrefab.val).getD [])
    ++ ":" ++ toString (e.comps.map (fun c => toString c.1 ++ "=" ++ toString c.2))

/-- Plain text rendering of a scene. -/
def renderScene (s : Scene) : String :=
  String.intercalate ";" (s.entities.map renderEntity)

/-- Modelled from the spec: the external reflection serializer
(`DynamicScene::serialize_ron`, a collaborator outside this repository).
Per spec section 4.4 it renders the detached scene to text and fails with a
human-readable cause exactly when some component value's encode hook fails;
the failing hooks are the world-supplied `encodeFails` set. -/
def serialize_ron (s : Scene) (encodeFails : List Nat) : Except String String :=
  match (sceneCompTypes s).find? (fun t => decide (t ∈ encodeFails)) with
  | some t => Except.error ("cannot encode component type " ++ toString t)
  | none => Except.ok (renderScene s)

/-- The `entities.is_empty()` branch of `serialize_scene`: emit the
"Saving empty scene" warning toast and log when the collected root set is
empty, leave the world unchanged otherwise. -/
def warnIfEmpty (w : World) : World :=
  if (selectedEntities w).isEmpty then
    { w with
      toasts := w.toasts ++ [Toast.mk "Saving empty scene" ToastKind.Warning]
      logs := w.logs ++ [LogEntry.warn "Saving empty scene"] }
  else
    w

/-- The sink dispatch of `serialize_scene` (the `if let Ok(str) = res`
match): on success hand a file write to the `IoTaskPool` or store the
detached scene in the memory cache (or do nothing when no destination is
configured); on failure emit the "failed to serialize prefab" error toast
and log and produce no output. -/
def dispatchSink (w1 : World) (scene : Scene) (res : Except String String) : World :=
  match res, w1.savePath with
  | Except.ok str, some (EditorPrefabPath.File p) =>
      { w1 with scheduledWrites := w1.scheduledWrites ++ [(p, str)] }
  | Except.ok _, some EditorPrefabPath.MemoryCache =>
      { w1 with cache := some scene }
  | Except.ok _, none => w1
  | Except.error e, _ =>
      { w1 with
        toasts := w1.toasts ++
          [Toast.mk ("failed to serialize prefab: " ++ e) ToastKind.Error]
        logs := w1.logs ++ [LogEntry.error ("failed to serialize prefab: " ++ e)] }

/-- System `serialize_scene`: collects the root set, warns on an empty
scene, reads the allow-list fresh from the registry, extracts and
serializes, dispatches the result to the configured sink, and
unconditionally sets `NextState` to `Idle`. -/
def serialize_scene (w : World) : World :=
  let w1 := warnIfEmpty w
  let scene := buildScene w1
  { dispatchSink w1 scene (serialize_ron scene w1.encodeFails) with
    nextState := SaveState.Idle }

/-- The `OnEnter(SaveState::Save)` system chain of `SavePrefabPlugin::build`:
`prepare_children` → `apply_deferred` → `serialize_scene` →
`delete_prepared_children` (the flush is implicit in state passing). -/
def savePipeline (w : World) : World :=
  delete_prepared_children (serialize_scene (prepare_children w))

/-- Content of the target file after the background task's single
`file.write(str.as_bytes())` on a handle opened with
`OpenOptions::new().create(true).append(false).write(true)` (Rust std
semantics: create if absent, position at offset zero, and — with no
`truncate(true)` — keep existing bytes past the written range). -/
def fsWriteContent (old : Option String) (data : String) : String :=
  match old with
  | none => data
  | some o => data ++ o.drop data.length

/-- Outcome of one run of the detached background write unit. -/
structure TaskRun where
  file : Option String
  logs : List LogEntry
  panicked : Bool
deriving DecidableEq, Repr

/-- The detached background write unit spawned on the `IoTaskPool`:
`open(&path).and_then(|file| file.write(..)).inspect_err(|e| error!(..))
.expect(..)` then `info!("Saved prefab to file ..")`.  `ioError` injects an
open/write failure; on failure the unit logs the error and then the
`expect` panics inside the task. -/
def runWriteTask (ioError : Option String) (oldFile : Option String)
    (path data : String) : TaskRun :=
  match ioError with
  | some e =>
      { file := oldFile
        logs := [LogEntry.error ("Error while writing scene to file: " ++ e)]
        panicked := true }
  | none =>
      { file := some (fsWriteContent oldFile data)
        logs := [LogEntry.info ("Saved prefab to file " ++ path)]
        panicked := false }

/-- Texts of the error-kind toasts of a world, in emission order. -/
def errorToastTexts (w : World) : List String :=
  (w.toasts.filter (fun t => decide (t.kind = ToastKind.Error))).map Toast.text

/-- Texts of the warning-kind toasts of a world, in emission order. -/
def warningToastTexts (w : World) : List String :=
  (w.toasts.filter (fun t => decide (t.kind = ToastKind.Warning))).map Toast.text

/-- A registry update between two saves (the registry resource is the only
field a registry change touches). -/
def setRegistry (w : World) (r : List Nat) : World :=
  { w with registry := r }

/-- Claim C10: applying entity-reference remapping (`MapEntities`) to a
`ChildrenPrefab` produces a list of the same length whose i-th element is
the remap of the original i-th child, preserving count and sibling order. -/
theorem map_entities_preserves_count_and_order (mapper : Nat → Nat)
    (c : ChildrenPrefab) :
    (ChildrenPrefab.map_entities mapper c).val.length = c.val.length ∧
    ∀ i : Nat, (ChildrenPrefab.map_entities mapper c).val[i]? =
      (c.val[i]?).map mapper := by
  constructor
  · simp [ChildrenPrefab.map_entities]
  · intro i
    simp [ChildrenPrefab.map_entities, List.getElem?_map]

/-- Concrete run of `map_entities_preserves_count_and_order` on the child
list [5, 7] and the successor mapper. -/
theorem map_entities_preserves_count_and_order_witness :
    (ChildrenPrefab.map_entities Nat.succ ⟨[5, 7]⟩).val[1]? = some 8 := by
  have h := map_entities_preserves_count_and_order Nat.succ ⟨[5, 7]⟩
  rw [h.2 1]
  rfl

/-- Claim C3: after the save pipeline (and after running it twice) no
entity of the world carries a `ChildrenPrefab` component: the cleanup
system runs last on every execution path and is idempotent. -/
theorem save_pipeline_cleanup (w : World) :
    ((savePipeline w).entities.all (fun e => e.childrenPrefab.isNone)) = true ∧
    ((savePipeline (savePipeline w)).entities.all
      (fun e => e.childrenPrefab.isNone)) = true := by
  have h : ∀ v : World,
      ((delete_prepared_children v).entities.all
        (fun e => e.childrenPrefab.isNone)) = true := by
    intro v
    simp [delete_prepared_children, List.all_map, Function.comp]
  exact ⟨h _, h _⟩

/-- Concrete run of `save_pipeline_cleanup` on a world holding a prepared
root, a stale record and a plain entity. -/
theorem save_pipeline_cleanup_witness :
    ((savePipeline (World.mk
        [EntityRec.mk 1 true false [2] none [], EntityRec.mk 2 false true [] (some ⟨[9]⟩) [],
         EntityRec.mk 3 false false [] none []]
        [0] [] none none [] [] [] SaveState.Save)).entities.all
      (fun e => e.childrenPrefab.isNone)) = true :=
  (save_pipeline_cleanup (World.mk
        [EntityRec.mk 1 true false [2] none [], EntityRec.mk 2 false true [] (some ⟨[9]⟩) [],
         EntityRec.mk 3 false false [] none []]
        [0] [] none none [] [] [] SaveState.Save)).1

/-- Claim C4: the transition back to `Idle` is unconditional — after
`serialize_scene` (and after the whole pipeline) the queued next state is
`Idle` for every world, including serialization failure and an empty root
set, so the system is never left stuck in `Save`. -/
theorem save_state_returns_to_idle (w : World) :
    (serialize_scene w).nextState = SaveState.Idle ∧
    (savePipeline w).nextState = SaveState.Idle := by
  constructor <;> rfl

/-- Concrete run of `save_state_returns_to_idle` on a world that is mid
save with no roots at all. -/
theorem save_state_returns_to_idle_witness :
    (serialize_scene (World.mk [] [] [] none none [] [] [] SaveState.Save)).nextState =
      SaveState.Idle :=
  (save_state_returns_to_idle (World.mk [] [] [] none none [] [] [] SaveState.Save)).1

/-- Claim C1 (code bug evaluation): the background write unit opens the
target with `create(true).append(false).write(true)` but never
`truncate(true)`, so writing the two encoded bytes "xy" over an existing
file holding "abcdef" leaves "xycdef" — the stale tail "cdef" survives,
contradicting the claimed truncate/overwrite semantics under which the
file would hold exactly "xy". -/
theorem file_write_keeps_stale_tail :
    (runWriteTask none (some "abcdef") "scene.ron" "xy").file = some "xycdef" ∧
    some "xycdef" ≠ some "xy" := by
  constructor
  · rfl
  · decide

/-- Claim C2 counterexample: on an injected open/write failure the
background write unit panics (the `expect` after `inspect_err`), refuting
"never panics". -/
theorem write_failure_panics :
    (runWriteTask (some "permission denied") (some "old") "scene.ron" "xy").panicked =
      true := rfl

/-- Claim C2 (amended): a failure to open or write the target surfaces
exactly one error log from the background unit and then the unit panics
via `expect`; the file is left untouched by the failed unit, and the
failure stays inside that detached unit (the synchronous `serialize_scene`
is a total function and has already scheduled the write and moved on). -/
theorem write_failure_logs_then_panics (e : String) (oldFile : Option String)
    (path data : String) :
    (runWriteTask (some e) oldFile path data).logs =
      [LogEntry.error ("Error while writing scene to file: " ++ e)] ∧
    (runWriteTask (some e) oldFile path data).panicked = true ∧
    (runWriteTask (some e) oldFile path data).file = oldFile :=
  ⟨rfl, rfl, rfl⟩

/-- Concrete run of `write_failure_logs_then_panics` on a disk-full
failure. -/
theorem write_failure_logs_then_panics_witness :
    (runWriteTask (some "disk full") none "scene.ron" "data").logs =
      [LogEntry.error ("Error while writing scene to file: " ++ "disk full")] ∧
    (runWriteTask (some "disk full") none "scene.ron" "data").panicked = true ∧
    (runWriteTask (some "disk full") none "scene.ron" "data").file = none :=
  write_failure_logs_then_panics "disk full" none "scene.ron" "data"

/-- Claim C7: child-link capture attaches to every save root with a
nonempty child list a `ChildrenPrefab` holding exactly those children in
live order, and attaches nothing to a childless root. -/
theorem prepare_children_capture (w : World) (e : EntityRec)
    (h1 : e ∈ w.entities) (h2 : isRoot e = true) (h3 : e.childrenPrefab = none) :
    ∃ e2, e2 ∈ (prepare_children w).entities ∧ e2.id = e.id ∧
      (e.children ≠ [] →
        e2.childrenPrefab = some (ChildrenPrefab.from_children e.children) ∧
        (ChildrenPrefab.from_children e.children).val = e.children) ∧
      (e.children = [] → e2.childrenPrefab = none) := by
  refine ⟨prepareOne e, ?_, ?_, ?_, ?_⟩
  · rw [prepare_children]
    exact List.mem_map.mpr ⟨e, h1, rfl⟩
  · rw [prepareOne]
    split <;> rfl
  · intro hne
    have hb : (isRoot e && !e.children.isEmpty) = true := by
      rw [h2]
      cases hc : e.children with
      | nil => exact absurd hc hne
      | cons a l => simp
    rw [prepareOne, if_pos hb]
    exact ⟨rfl, rfl⟩
  · intro hnil
    have hb : (isRoot e && !e.children.isEmpty) = false := by
      rw [hnil]
      simp
    rw [prepareOne, if_neg (by simp [hb])]
    exact h3

/-- Concrete run of `prepare_children_capture` on a root with children
[4, 2] (order preserved) next to a childless root. -/
theorem prepare_children_capture_witness :
    ∃ e2, e2 ∈ (prepare_children (World.mk
        [EntityRec.mk 1 true false [4, 2] none [], EntityRec.mk 3 true false [] none []]
        [0] [] none none [] [] [] SaveState.Save)).entities ∧
      e2.id = (EntityRec.mk 1 true false [4, 2] none []).id ∧
      ((EntityRec.mk 1 true false [4, 2] none []).children ≠ [] →
        e2.childrenPrefab = some (ChildrenPrefab.from_children
          (EntityRec.mk 1 true false [4, 2] none []).children) ∧
        (ChildrenPrefab.from_children
          (EntityRec.mk 1 true false [4, 2] none []).children).val =
          (EntityRec.mk 1 true false [4, 2] none []).children) ∧
      ((EntityRec.mk 1 true false [4, 2] none []).children = [] →
        e2.childrenPrefab = none) :=
  prepare_children_capture
    (World.mk
      [EntityRec.mk 1 true false [4, 2] none [], EntityRec.mk 3 true false [] none []]
      [0] [] none none [] [] [] SaveState.Save)
    (EntityRec.mk 1 true false [4, 2] none [])
    (by decide) (by decide) (by decide)

/-- Claim C8: an entity carrying `SceneAutoChild` is never a save root —
child-link capture leaves it untouched, it never matches the root query
that feeds both the collected entity set and scene extraction, and every
selected root id comes from an entity without the auto-child tag. -/
theorem auto_child_never_root (w : World) (e : EntityRec)
    (h : e.sceneAutoChild = true) :
    prepareOne e = e ∧ e ∉ rootsOf w ∧
    ∀ i ∈ selectedEntities w,
      ∃ e2, e2 ∈ w.entities ∧ e2.sceneAutoChild = false ∧ e2.id = i := by
  have hr : isRoot e = false := by
    simp [isRoot, h]
  refine ⟨?_, ?_, ?_⟩
  · rw [prepareOne, if_neg (by simp [hr])]
  · intro hmem
    rw [rootsOf, List.mem_filter, hr] at hmem
    exact absurd hmem.2 (by simp)
  · intro i hi
    rw [selectedEntities] at hi
    rcases List.mem_map.mp hi with ⟨e2, he2, hid⟩
    rw [rootsOf, List.mem_filter] at he2
    refine ⟨e2, he2.1, ?_, hid⟩
    rcases he2 with ⟨_, hroot⟩
    rw [isRoot] at hroot
    cases hauto : e2.sceneAutoChild with
    | false => rfl
    | true => rw [hauto] at hroot; simp at hroot

/-- Concrete run of `auto_child_never_root` on an auto-generated child
that also carries the save-root tag and has children. -/
theorem auto_child_never_root_witness :
    prepareOne (EntityRec.mk 9 true true [1, 2] none []) =
      EntityRec.mk 9 true true [1, 2] none [] ∧
    EntityRec.mk 9 true true [1, 2] none [] ∉ rootsOf (World.mk
      [EntityRec.mk 9 true true [1, 2] none [], EntityRec.mk 1 true false [] none []]
      [0] [] none none [] [] [] SaveState.Save) ∧
    ∀ i ∈ selectedEntities (World.mk
      [EntityRec.mk 9 true true [1, 2] none [], EntityRec.mk 1 true false [] none []]
      [0] [] none none [] [] [] SaveState.Save),
      ∃ e2, e2 ∈ (World.mk
        [EntityRec.mk 9 true true [1, 2] none [], EntityRec.mk 1 true false [] none []]
        [0] [] none none [] [] [] SaveState.Save).entities ∧
        e2.sceneAutoChild = false ∧ e2.id = i :=
  auto_child_never_root
    (World.mk
      [EntityRec.mk 9 true true [1, 2] none [], EntityRec.mk 1 true false [] none []]
      [0] [] none none [] [] [] SaveState.Save)
    (EntityRec.mk 9 true true [1, 2] none [])
    (by decide)

/-! Helper lemmas: the empty-scene warning step only appends a warning
toast and a log entry, so every other field of the world — and hence the
scene the builder extracts — is unchanged by it. -/

theorem warnIfEmpty_encodeFails (w : World) :
    (warnIfEmpty w).encodeFails = w.encodeFails := by
  rw [warnIfEmpty]
  split <;> rfl

theorem warnIfEmpty_savePath (w : World) :
    (warnIfEmpty w).savePath = w.savePath := by
  rw [warnIfEmpty]
  split <;> rfl

theorem warnIfEmpty_cache (w : World) :
    (warnIfEmpty w).cache = w.cache := by
  rw [warnIfEmpty]
  split <;> rfl

theorem warnIfEmpty_scheduledWrites (w : World) :
    (warnIfEmpty w).scheduledWrites = w.scheduledWrites := by
  rw [warnIfEmpty]
  split <;> rfl

theorem buildScene_warnIfEmpty (w : World) :
    buildScene (warnIfEmpty w) = buildScene w := by
  rw [warnIfEmpty]
  split <;> rfl

theorem errorToastTexts_warnIfEmpty (w : World) :
    errorToastTexts (warnIfEmpty w) = errorToastTexts w := by
  rw [warnIfEmpty]
  split
  · simp [errorToastTexts, List.filter_append]
  · rfl

/-- Claim C6: a component instance of a selected entity appears in the
detached scene iff its type id is in the allow-list derived from the
registry as it stands at the save call — here the save runs on a world
whose registry was changed to `r` after arbitrary earlier history, and the
scene is filtered by exactly `r`; unlisted component types are silently
dropped. -/
theorem scene_allowlist_fresh (w : World) (r : List Nat) (se : SceneEntity)
    (h : se ∈ (buildScene (setRegistry w r)).entities) :
    ∃ e, e ∈ w.entities ∧ isRoot e = true ∧ se.id = e.id ∧
      ∀ t v : Nat, ((t, v) ∈ se.comps ↔ ((t, v) ∈ e.comps ∧ t ∈ r)) := by
  rw [buildScene] at h
  rcases List.mem_map.mp h with ⟨e, he, hse⟩
  rw [rootsOf, List.mem_filter] at he
  refine ⟨e, he.1, he.2, ?_, ?_⟩
  · rw [← hse]
    rfl
  · intro t v
    rw [← hse]
    simp [extractEntity, setRegistry, List.mem_filter]

/-- Concrete run of `scene_allowlist_fresh`: an entity carrying component
types 1 and 2 saved after the registry shrank from [1, 2] to [2] yields a
scene entity holding only the type-2 component. -/
theorem scene_allowlist_fresh_witness :
    ∃ e, e ∈ (World.mk [EntityRec.mk 1 true false [] none [(1, 10), (2, 20)]]
        [1, 2] [] none none [] [] [] SaveState.Save).entities ∧
      isRoot e = true ∧ (SceneEntity.mk 1 none [(2, 20)]).id = e.id ∧
      ∀ t v : Nat, ((t, v) ∈ (SceneEntity.mk 1 none [(2, 20)]).comps ↔
        ((t, v) ∈ e.comps ∧ t ∈ [2])) :=
  scene_allowlist_fresh
    (World.mk [EntityRec.mk 1 true false [] none [(1, 10), (2, 20)]]
      [1, 2] [] none none [] [] [] SaveState.Save)
    [2] (SceneEntity.mk 1 none [(2, 20)]) (by decide)

/-- Claim C5: when serialization of the detached scene fails with cause
`c`, the save leaves the memory cache untouched, schedules no file write,
appends exactly one error notification whose text is
"failed to serialize prefab: c", and still queues the `Idle` state. -/
theorem serialize_failure_no_output (w : World) (c : String)
    (h : serialize_ron (buildScene w) w.encodeFails = Except.error c) :
    (serialize_scene w).cache = w.cache ∧
    (serialize_scene w).scheduledWrites = w.scheduledWrites ∧
    errorToastTexts (serialize_scene w) =
      errorToastTexts w ++ ["failed to serialize prefab: " ++ c] ∧
    (serialize_scene w).nextState = SaveState.Idle := by
  have hres : serialize_ron (buildScene (warnIfEmpty w)) (warnIfEmpty w).encodeFails
      = Except.error c := by
    rw [buildScene_warnIfEmpty, warnIfEmpty_encodeFails, h]
  have hd : serialize_scene w =
      { dispatchSink (warnIfEmpty w) (buildScene (warnIfEmpty w))
          (serialize_ron (buildScene (warnIfEmpty w)) (warnIfEmpty w).encodeFails) with
        nextState := SaveState.Idle } := rfl
  have hdisp : dispatchSink (warnIfEmpty w) (buildScene (warnIfEmpty w))
      (Except.error c) =
      { warnIfEmpty w with
        toasts := (warnIfEmpty w).toasts ++
          [Toast.mk ("failed to serialize prefab: " ++ c) ToastKind.Error]
        logs := (warnIfEmpty w).logs ++
          [LogEntry.error ("failed to serialize prefab: " ++ c)] } := by
    rw [dispatchSink]
  rw [hd, hres, hdisp]
  refine ⟨?_, ?_, ?_, rfl⟩
  · exact warnIfEmpty_cache w
  · exact warnIfEmpty_scheduledWrites w
  · rw [← errorToastTexts_warnIfEmpty w]
    simp [errorToastTexts, List.filter_append]

/-- Concrete run of `serialize_failure_no_output`: a root entity whose
only component type 5 has a failing encode hook. -/
theorem serialize_failure_no_output_witness :
    (serialize_scene (World.mk [EntityRec.mk 1 true false [] none [(5, 7)]]
        [5] [5] (some (EditorPrefabPath.File "a.ron")) none [] [] []
        SaveState.Save)).cache =
      (World.mk [EntityRec.mk 1 true false [] none [(5, 7)]]
        [5] [5] (some (EditorPrefabPath.File "a.ron")) none [] [] []
        SaveState.Save).cache ∧
    (serialize_scene (World.mk [EntityRec.mk 1 true false [] none [(5, 7)]]
        [5] [5] (some (EditorPrefabPath.File "a.ron")) none [] [] []
        SaveState.Save)).scheduledWrites =
      (World.mk [EntityRec.mk 1 true false [] none [(5, 7)]]
        [5] [5] (some (EditorPrefabPath.File "a.ron")) none [] [] []
        SaveState.Save).scheduledWrites ∧
    errorToastTexts (serialize_scene (World.mk
        [EntityRec.mk 1 true false [] none [(5, 7)]]
        [5] [5] (some (EditorPrefabPath.File "a.ron")) none [] [] []
        SaveState.Save)) =
      errorToastTexts (World.mk [EntityRec.mk 1 true false [] none [(5, 7)]]
        [5] [5] (some (EditorPrefabPath.File "a.ron")) none [] [] []
        SaveState.Save) ++
        ["failed to serialize prefab: " ++ "cannot encode component type 5"] ∧
    (serialize_scene (World.mk [EntityRec.mk 1 true false [] none [(5, 7)]]
        [5] [5] (some (EditorPrefabPath.File "a.ron")) none [] [] []
        SaveState.Save)).nextState = SaveState.Idle :=
  serialize_failure_no_output
    (World.mk [EntityRec.mk 1 true false [] none [(5, 7)]]
      [5] [5] (some (EditorPrefabPath.File "a.ron")) none [] [] []
      SaveState.Save)
    "cannot encode component type 5" rfl

/-- Claim C9: a save over an empty root set still completes — it appends
the "Saving empty scene" warning notification, places a zero-entity scene
into the memory cache when that is the destination, and queues `Idle`. -/
theorem serialize_empty_scene (w : World)
    (h1 : selectedEntities w = [])
    (h2 : w.savePath = some EditorPrefabPath.MemoryCache) :
    warningToastTexts (serialize_scene w) =
      warningToastTexts w ++ ["Saving empty scene"] ∧
    (∃ s, (serialize_scene w).cache = some s ∧ s.entities = []) ∧
    (serialize_scene w).nextState = SaveState.Idle := by
  have hw1 : warnIfEmpty w =
      { w with
        toasts := w.toasts ++ [Toast.mk "Saving empty scene" ToastKind.Warning]
        logs := w.logs ++ [LogEntry.warn "Saving empty scene"] } := by
    rw [warnIfEmpty, h1]
    rfl
  have hroots : rootsOf w = [] := by
    have h1' := h1
    rw [selectedEntities] at h1'
    exact List.map_eq_nil_iff.mp h1'
  have hscene : buildScene (warnIfEmpty w) = Scene.mk [] := by
    rw [buildScene_warnIfEmpty, buildScene, hroots]
    rfl
  have hres : serialize_ron (buildScene (warnIfEmpty w)) (warnIfEmpty w).encodeFails
      = Except.ok (renderScene (Scene.mk [])) := by
    rw [hscene]
    rfl
  have hpath : (warnIfEmpty w).savePath = some EditorPrefabPath.MemoryCache := by
    rw [warnIfEmpty_savePath, h2]
  have hd : serialize_scene w =
      { dispatchSink (warnIfEmpty w) (buildScene (warnIfEmpty w))
          (serialize_ron (buildScene (warnIfEmpty w)) (warnIfEmpty w).encodeFails) with
        nextState := SaveState.Idle } := rfl
  have hdisp : dispatchSink (warnIfEmpty w) (Scene.mk [])
      (Except.ok (renderScene (Scene.mk []))) =
      { warnIfEmpty w with cache := some (Scene.mk []) } := by
    unfold dispatchSink
    rw [hpath]
    simp [hpath]
  rw [hd, hres, hscene, hdisp, hw1]
  refine ⟨?_, ⟨Scene.mk [], rfl, rfl⟩, rfl⟩
  simp [warningToastTexts, List.filter_append]

/-- Concrete run of `serialize_empty_scene` on a world whose only entity
is an auto-generated child, with the memory cache as destination. -/
theorem serialize_empty_scene_witness :
    warningToastTexts (serialize_scene (World.mk
        [EntityRec.mk 1 false true [] none []] [0] []
        (some EditorPrefabPath.MemoryCache) none [] [] [] SaveState.Save)) =
      warningToastTexts (World.mk
        [EntityRec.mk 1 false true [] none []] [0] []
        (some EditorPrefabPath.MemoryCache) none [] [] [] SaveState.Save) ++
        ["Saving empty scene"] ∧
    (∃ s, (serialize_scene (World.mk
        [EntityRec.mk 1 false true [] none []] [0] []
        (some EditorPrefabPath.MemoryCache) none [] [] [] SaveState.Save)).cache =
      some s ∧ s.entities = []) ∧
    (serialize_scene (World.mk
        [EntityRec.mk 1 false true [] none []] [0] []
        (some EditorPrefabPath.MemoryCache) none [] [] [] SaveState.Save)).nextState =
      SaveState.Idle :=
  serialize_empty_scene
    (World.mk [EntityRec.mk 1 false true [] none []] [0] []
      (some EditorPrefabPath.MemoryCache) none [] [] [] SaveState.Save)
    (by decide) rfl

end SpaceEditorSave
